import Mathlib

/-!
Shallow embedding of `src/main.py` (a Supabase credential CLI) and proofs of
its specification's claims.

Modelling conventions:
- Python exceptions are the type `PyErr`. Ordinary exceptions (subclasses of
  `Exception`) are `PyErr.exn msg`; a `KeyboardInterrupt` — which in Python 3
  derives from `BaseException` directly and is NOT caught by
  `except Exception` — is `PyErr.interrupt`.
- A Python function that may raise is embedded as returning
  `Except PyErr α`: `.error e` means the exception `e` propagates to the
  caller; `.ok` means a normal return.
- Every network round trip performed by the Supabase SDK is an oracle input:
  the value the backend would produce, or the exception it would raise (or an
  interrupt delivered at that await point).
- `print` calls are collected in a `List LogEntry`, one constructor per
  distinct print statement of the source.
-/

/-- Python exceptions: ordinary `Exception` instances versus
`KeyboardInterrupt`, which `except Exception` does not catch. -/
inductive PyErr where
  | exn (msg : String)
  | interrupt
  deriving DecidableEq, Repr

/-- An opaque Supabase async client handle (`AsyncClient`). -/
inductive Client where
  | mk
  deriving DecidableEq, Repr

/-- An opaque realtime channel handle returned by `.subscribe()`. -/
inductive Channel where
  | mk
  deriving DecidableEq, Repr

/-- A row of the `credentials` table (spec §3: attributes `email` and
`password`, both strings). -/
structure Credential where
  email : String
  password : String
  deriving DecidableEq, Repr

/-- A generic row payload delivered in a realtime event: a string-keyed
dictionary (we keep only string values, which is all the program inspects). -/
abbrev Row : Type := List (String × String)

/-- One log line per `print` statement in `src/main.py`. -/
inductive LogEntry where
  | configError
  | initSuccess
  | initFailure (e : String)
  | retrievedCount (n : Nat)
  | credentialsData (rows : List Credential)
  | insertedFor (email : String)
  | insertResponse (rows : List Credential)
  | updatedFor (email : String)
  | updateResponse (rows : List Credential)
  | deletedFor (email : String)
  | deleteResponse (rows : List Credential)
  | errorFetching (e : String)
  | errorInserting (e : String)
  | errorUpdating (e : String)
  | errorDeleting (e : String)
  | eventReceived (event_type : String)
  | recordDeleted (old_record : Row)
  | updatedRecord (record : Row)
  | subscribeSuccess
  | errorSubscribing (e : String)
  | listening
  | exitingRealtime
  | subscriptionRemoved
  | errorRemovingSubscription (e : String)
  deriving DecidableEq, Repr

/-- The process environment: `os.environ.get` for the two configuration
variables (`None` models an unset variable). -/
structure Env where
  SUPABASE_URL : Option String
  SUPABASE_KEY : Option String
  deriving DecidableEq, Repr

/-- Python truthiness of `os.environ.get(...)`: `None` and the empty string
are falsy, every other string truthy. -/
def truthy : Option String → Bool
  | none => false
  | some s => !s.isEmpty

/-- The result of `initialize_supabase` on a normal return: the returned
handle, the printed lines, and whether `create_async_client` was invoked
(instrumentation recording whether a network call was attempted). -/
structure InitResult where
  client : Option Client
  log : List LogEntry
  connectAttempted : Bool
  deriving DecidableEq, Repr

/-- Embedding of `initialize_supabase` (src/main.py lines 8-20).
`connect` is the oracle for the single `create_async_client(url, key)` call.
The source reads both variables, returns `None` after a config error when
either is falsy, and wraps the connect call in `try/except Exception`. -/
def initialize_supabase (env : Env)
    (connect : String → String → Except PyErr Client) :
    Except PyErr InitResult :=
  let url := env.SUPABASE_URL
  let key := env.SUPABASE_KEY
  if !truthy url || !truthy key then
    .ok ⟨none, [.configError], false⟩
  else
    match connect (url.getD "") (key.getD "") with
    | .ok c => .ok ⟨some c, [.initSuccess], true⟩
    | .error (.exn e) => .ok ⟨none, [.initFailure e], true⟩
    | .error .interrupt => .error .interrupt

/-- Embedding of `fetch_credentials` (lines 23-30). `resp` is the oracle for
the `select("*").execute()` round trip; the body is wrapped in
`try/except Exception`. A normal return carries only the printed lines
(the Python function returns `None`). -/
def fetch_credentials (resp : Except PyErr (List Credential)) :
    Except PyErr (List LogEntry) :=
  match resp with
  | .ok records => .ok [.retrievedCount records.length, .credentialsData records]
  | .error (.exn e) => .ok [.errorFetching e]
  | .error .interrupt => .error .interrupt

/-- The row dictionary `insert_credential` sends (line 37):
`{"email": email, "password": password}`. -/
def insert_credential_row (email password : String) : Row :=
  [("email", email), ("password", password)]

/-- Embedding of `insert_credential` (lines 33-43). `backend` is the oracle
for the `insert({...}).execute()` round trip, applied to the row dictionary
the source builds. -/
def insert_credential (email password : String)
    (backend : Row → Except PyErr (List Credential)) :
    Except PyErr (List LogEntry) :=
  match backend (insert_credential_row email password) with
  | .ok data => .ok [.insertedFor email, .insertResponse data]
  | .error (.exn e) => .ok [.errorInserting e]
  | .error .interrupt => .error .interrupt

/-- The request built by `update_credential` (lines 50-55):
`table("credentials").update({"password": new_password}).eq("email", email)`. -/
structure TableUpdateRequest where
  table : String
  setFields : List (String × String)
  filterColumn : String
  filterValue : String
  deriving DecidableEq, Repr

/-- The exact update request the source constructs for a given email and new
password. -/
def update_credential_request (email new_password : String) :
    TableUpdateRequest :=
  ⟨"credentials", [("password", new_password)], "email", email⟩

/-- Embedding of `update_credential` (lines 46-59). `backend` is the oracle
executing the constructed update request. -/
def update_credential (email new_password : String)
    (backend : TableUpdateRequest → Except PyErr (List Credential)) :
    Except PyErr (List LogEntry) :=
  match backend (update_credential_request email new_password) with
  | .ok data => .ok [.updatedFor email, .updateResponse data]
  | .error (.exn e) => .ok [.errorUpdating e]
  | .error .interrupt => .error .interrupt

/-- Embedding of `delete_credential` (lines 62-70). -/
def delete_credential (email : String)
    (resp : Except PyErr (List Credential)) : Except PyErr (List LogEntry) :=
  match resp with
  | .ok data => .ok [.deletedFor email, .deleteResponse data]
  | .error (.exn e) => .ok [.errorDeleting e]
  | .error .interrupt => .error .interrupt

/-- The `data` dictionary inside a realtime payload; each field is `none`
when the key is absent (Python `.get` with a default). -/
structure ChangeData where
  type : Option String
  record : Option Row
  old_record : Option Row
  deriving DecidableEq

/-- A realtime callback payload: `{ "data": ... }`, with `data` absent
allowed. -/
structure RealtimePayload where
  data : Option ChangeData
  deriving DecidableEq

/-- The empty dictionary used as the default of `payload.get("data", {})`. -/
def emptyChangeData : ChangeData := ⟨none, none, none⟩

/-- The empty dictionary used as the default of
`data.get("record", {})` / `data.get("old_record", {})`. -/
def emptyRow : Row := []

/-- Embedding of `handle_record_updated` (lines 73-82): pure observer, its
only effect is the returned list of printed lines. -/
def handle_record_updated (payload : RealtimePayload) : List LogEntry :=
  let data := payload.data.getD emptyChangeData
  let event_type := data.type.getD "unknown"
  LogEntry.eventReceived event_type ::
    (if event_type == "DELETE" then
      [LogEntry.recordDeleted (data.old_record.getD emptyRow)]
    else
      [LogEntry.updatedRecord (data.record.getD emptyRow)])

/-- Result of `setup_realtime_subscription` on a normal return: the channel
handle (or `none` after a caught error) and the printed lines. -/
structure SetupResult where
  channel : Option Channel
  log : List LogEntry
  deriving DecidableEq, Repr

/-- Embedding of `setup_realtime_subscription` (lines 85-101). `sub` is the
oracle for the `channel(...).on_postgres_changes(...).subscribe()` round
trip; the body is wrapped in `try/except Exception`, so an ordinary
exception yields a `None` channel while an interrupt propagates. -/
def setup_realtime_subscription (sub : Except PyErr Channel) :
    Except PyErr SetupResult :=
  match sub with
  | .ok ch => .ok ⟨some ch, [.subscribeSuccess]⟩
  | .error (.exn e) => .ok ⟨none, [.errorSubscribing e]⟩
  | .error .interrupt => .error .interrupt

/-- Embedding of `remove_realtime_subscription` (lines 104-109). `rem` is
the oracle for the `supabase.remove_channel(channel)` round trip; the body
is wrapped in `try/except Exception`. -/
def remove_realtime_subscription (rem : Except PyErr Unit) :
    Except PyErr (List LogEntry) :=
  match rem with
  | .ok _ => .ok [.subscriptionRemoved]
  | .error (.exn e) => .ok [.errorRemovingSubscription e]
  | .error .interrupt => .error .interrupt

/-- Result of one `run_realtime` run: the normal-or-exceptional outcome
with the printed lines, whether the subscribe round trip was attempted, and
how many times `remove_realtime_subscription` was invoked. -/
structure RealtimeResult where
  result : Except PyErr (List LogEntry)
  subscribeAttempted : Bool
  unsubAttempts : Nat
  deriving Repr

/-- Embedding of `run_realtime` (lines 112-129).

Oracles: `connect` and `sub` as above; `loopErr` is the exception that ends
the `while True: await asyncio.sleep(1)` loop (the loop has no other exit;
an interrupt delivered there is the `except KeyboardInterrupt` path);
`rem` is the outcome of the remove round trip in the `finally` block.

Control flow mirrors the source: a `None` client or a `None` channel causes
an early `return` before the `try/finally`; an interrupt raised inside
`initialize_supabase` or `setup_realtime_subscription` propagates out of
`run_realtime` because those helpers catch only `Exception`; the
`finally` block runs its guarded `if channel:` release exactly when the
`try` was entered, and an exception escaping the `finally` replaces the
body's outcome. -/
def run_realtime (env : Env)
    (connect : String → String → Except PyErr Client)
    (sub : Except PyErr Channel) (loopErr : PyErr)
    (rem : Except PyErr Unit) : RealtimeResult :=
  match initialize_supabase env connect with
  | .error err => ⟨.error err, false, 0⟩
  | .ok ir =>
    match ir.client with
    | none => ⟨.ok ir.log, false, 0⟩
    | some _ =>
      match setup_realtime_subscription sub with
      | .error err => ⟨.error err, true, 0⟩
      | .ok sr =>
        match sr.channel with
        | none => ⟨.ok (ir.log ++ sr.log), true, 0⟩
        | some _ =>
          let log1 := ir.log ++ sr.log ++ [LogEntry.listening]
          let body : Except PyErr (List LogEntry) :=
            match loopErr with
            | .interrupt => .ok (log1 ++ [LogEntry.exitingRealtime])
            | .exn e => .error (.exn e)
          match remove_realtime_subscription rem with
          | .error err2 => ⟨.error err2, true, 1⟩
          | .ok rlog =>
            match body with
            | .ok blog => ⟨.ok (blog ++ rlog), true, 1⟩
            | .error err => ⟨.error err, true, 1⟩

/-- Result of one CLI command coroutine: the outcome with printed lines, and
whether the command's backend round trip was attempted. -/
structure CommandRun where
  result : Except PyErr (List LogEntry)
  requestAttempted : Bool
  deriving Repr

/-- Embedding of `do_create` (lines 132-136). -/
def do_create (env : Env)
    (connect : String → String → Except PyErr Client)
    (email password : String)
    (backend : Row → Except PyErr (List Credential)) : CommandRun :=
  match initialize_supabase env connect with
  | .error err => ⟨.error err, false⟩
  | .ok ir =>
    match ir.client with
    | none => ⟨.ok ir.log, false⟩
    | some _ =>
      match insert_credential email password backend with
      | .ok ilog => ⟨.ok (ir.log ++ ilog), true⟩
      | .error err => ⟨.error err, true⟩

/-- Embedding of `do_update` (lines 139-143). -/
def do_update (env : Env)
    (connect : String → String → Except PyErr Client)
    (email password : String)
    (backend : TableUpdateRequest → Except PyErr (List Credential)) :
    CommandRun :=
  match initialize_supabase env connect with
  | .error err => ⟨.error err, false⟩
  | .ok ir =>
    match ir.client with
    | none => ⟨.ok ir.log, false⟩
    | some _ =>
      match update_credential email password backend with
      | .ok ulog => ⟨.ok (ir.log ++ ulog), true⟩
      | .error err => ⟨.error err, true⟩

/-- Embedding of `do_delete` (lines 146-150). -/
def do_delete (env : Env)
    (connect : String → String → Except PyErr Client)
    (email : String)
    (resp : Except PyErr (List Credential)) : CommandRun :=
  match initialize_supabase env connect with
  | .error err => ⟨.error err, false⟩
  | .ok ir =>
    match ir.client with
    | none => ⟨.ok ir.log, false⟩
    | some _ =>
      match delete_credential email resp with
      | .ok dlog => ⟨.ok (ir.log ++ dlog), true⟩
      | .error err => ⟨.error err, true⟩

/-- Embedding of `do_list` (lines 153-157). -/
def do_list (env : Env)
    (connect : String → String → Except PyErr Client)
    (resp : Except PyErr (List Credential)) : CommandRun :=
  match initialize_supabase env connect with
  | .error err => ⟨.error err, false⟩
  | .ok ir =>
    match ir.client with
    | none => ⟨.ok ir.log, false⟩
    | some _ =>
      match fetch_credentials resp with
      | .ok flog => ⟨.ok (ir.log ++ flog), true⟩
      | .error err => ⟨.error err, true⟩

/-- A parsed command line, as produced by the argparse configuration in
`main` (lines 160-188): five mutually exclusive verbs with their required
flags. -/
inductive Command where
  | create (email password : String)
  | update (email password : String)
  | delete (email : String)
  | list
  | realtime
  deriving DecidableEq, Repr

/-- Lift an exception-only backend outcome (the internal-failure model:
configuration, connection, request and subscription errors are ordinary
exceptions) into the `PyErr` world. -/
def injExn : Except String α → Except PyErr α
  | .ok a => .ok a
  | .error e => .error (.exn e)

/-- Embedding of the dispatch in `main` (lines 190-199) down to the process
exit status. The program calls `sys.exit` nowhere, so the exit status is 0
exactly when no exception escapes `asyncio.run`; a propagating exception
makes the interpreter exit non-zero (modelled as 130). Backend oracles are
exception-only (`Except String`): internal failures, not interrupts; the
realtime listen loop is ended by its `KeyboardInterrupt`.  -/
def mainExitCode (cmd : Command) (env : Env)
    (connect : String → String → Except String Client)
    (listResp : Except String (List Credential))
    (insertBackend : Row → Except String (List Credential))
    (updateBackend : TableUpdateRequest → Except String (List Credential))
    (deleteResp : Except String (List Credential))
    (sub : Except String Channel) (rem : Except String Unit) : Nat :=
  let connectP := fun u k => injExn (connect u k)
  let outcome : Except PyErr (List LogEntry) :=
    match cmd with
    | .create email password =>
        (do_create env connectP email password
          (fun r => injExn (insertBackend r))).result
    | .update email password =>
        (do_update env connectP email password
          (fun r => injExn (updateBackend r))).result
    | .delete email => (do_delete env connectP email (injExn deleteResp)).result
    | .list => (do_list env connectP (injExn listResp)).result
    | .realtime =>
        (run_realtime env connectP (injExn sub) .interrupt (injExn rem)).result
  match outcome with
  | .ok _ => 0
  | .error _ => 130

/-- Modelled from the spec: the backend capability
`Session.query(table).update(fields).filter(key=value)` (spec §6), whose
semantics on the credentials table is not part of this repository. Setting
a field writes the named column of a row; unknown columns are ignored. -/
def setColumn (r : Credential) (c v : String) : Credential :=
  if c = "email" then ⟨v, r.password⟩
  else if c = "password" then ⟨r.email, v⟩
  else r

/-- Reading a named column of a credential row. -/
def getColumn (r : Credential) (c : String) : Option String :=
  if c = "email" then some r.email
  else if c = "password" then some r.password
  else none

/-- Modelled from the spec: executing an update request against a table sets
the request's fields on every row whose filter column equals the filter
value and leaves every other row unchanged (spec §6 capability
`update(fields).filter(key=value)`; §4.2 "given an email key, set password
on the matching row(s)"). -/
def applyUpdateRequest (req : TableUpdateRequest) (tbl : List Credential) :
    List Credential :=
  tbl.map (fun r =>
    if getColumn r req.filterColumn = some req.filterValue then
      req.setFields.foldl (fun acc kv => setColumn acc kv.1 kv.2) r
    else r)

/-- Whether `initialize_supabase` returns normally with a non-null client
for these inputs (the condition under which a command proceeds). -/
def bootstrapGivesClient (env : Env)
    (connect : String → String → Except PyErr Client) : Bool :=
  match initialize_supabase env connect with
  | .ok ir => ir.client.isSome
  | .error _ => false

/-- Whether the subscribe round trip returns a channel (the condition under
which `run_realtime` reaches its listening loop). -/
def subscribeGivesChannel (sub : Except PyErr Channel) : Bool :=
  match sub with
  | .ok _ => true
  | .error _ => false

/-- C1: if either configuration value is missing or empty, the bootstrap
logs a configuration error and returns a null handle, and the backend
connect capability is never invoked. -/
theorem initialize_supabase_missing_config (env : Env)
    (connect : String → String → Except PyErr Client)
    (h : truthy env.SUPABASE_URL = false ∨ truthy env.SUPABASE_KEY = false) :
    initialize_supabase env connect =
      .ok ⟨none, [LogEntry.configError], false⟩ := by
  unfold initialize_supabase
  rcases h with h | h <;> simp [h]

/-- Witness for C1 at a concrete environment with `SUPABASE_URL` unset. -/
theorem initialize_supabase_missing_config_witness :
    initialize_supabase ⟨none, some "k"⟩ (fun _ _ => .ok Client.mk) =
      .ok ⟨none, [LogEntry.configError], false⟩ :=
  initialize_supabase_missing_config ⟨none, some "k"⟩ (fun _ _ => .ok Client.mk)
    (Or.inl (by decide))

/-- C5: any exception thrown by the connect call is caught, logged, and
turned into a null handle; the bootstrap still returns normally (the
exception is never propagated to its caller). -/
theorem initialize_supabase_handshake_failure (env : Env)
    (connect : String → String → Except PyErr Client) (e : String)
    (hu : truthy env.SUPABASE_URL = true) (hk : truthy env.SUPABASE_KEY = true)
    (hc : connect (env.SUPABASE_URL.getD "") (env.SUPABASE_KEY.getD "") =
      .error (.exn e)) :
    initialize_supabase env connect =
      .ok ⟨none, [LogEntry.initFailure e], true⟩ := by
  unfold initialize_supabase
  simp [hu, hk, hc]

/-- Witness for C5 at a concrete environment and a failing connect oracle. -/
theorem initialize_supabase_handshake_failure_witness :
    initialize_supabase ⟨some "u", some "k"⟩ (fun _ _ => .error (.exn "boom")) =
      .ok ⟨none, [LogEntry.initFailure "boom"], true⟩ :=
  initialize_supabase_handshake_failure ⟨some "u", some "k"⟩
    (fun _ _ => .error (.exn "boom")) "boom" (by decide) (by decide) rfl

/-- C3: each of the four credential operations catches any exception the
backend raises during its round trip, logs a message, and returns normally
with no structured error value (the Python functions return `None`; the
only observable output is the log). -/
theorem crud_operations_swallow_backend_exceptions
    (e email password : String) :
    fetch_credentials (.error (.exn e)) = .ok [LogEntry.errorFetching e]
    ∧ insert_credential email password (fun _ => .error (.exn e)) =
        .ok [LogEntry.errorInserting e]
    ∧ update_credential email password (fun _ => .error (.exn e)) =
        .ok [LogEntry.errorUpdating e]
    ∧ delete_credential email (.error (.exn e)) =
        .ok [LogEntry.errorDeleting e] :=
  ⟨rfl, rfl, rfl, rfl⟩

/-- C2: the realtime callback routes on the event-type tag: a DELETE event
logs the pre-deletion snapshot taken from `old_record`, while INSERT and
UPDATE events log the post-change snapshot taken from `record`. Its
embedding returns only the printed lines: it mutates no state and returns
no value. -/
theorem handle_record_updated_event_routing (r o : Option Row) :
    handle_record_updated ⟨some ⟨some "DELETE", r, o⟩⟩ =
      [LogEntry.eventReceived "DELETE", LogEntry.recordDeleted (o.getD emptyRow)]
    ∧ handle_record_updated ⟨some ⟨some "INSERT", r, o⟩⟩ =
      [LogEntry.eventReceived "INSERT", LogEntry.updatedRecord (r.getD emptyRow)]
    ∧ handle_record_updated ⟨some ⟨some "UPDATE", r, o⟩⟩ =
      [LogEntry.eventReceived "UPDATE", LogEntry.updatedRecord (r.getD emptyRow)] :=
  ⟨rfl, rfl, rfl⟩

/-- C10: the callback is total on dictionary payloads: a missing `data`
wrapper, type tag, or record field falls back to the empty dictionary (the
tag to "unknown"), and any tag other than "DELETE" — including the absent
tag — is handled by the insert/update branch via `record`. -/
theorem handle_record_updated_total_defaults :
    handle_record_updated ⟨none⟩ =
      [LogEntry.eventReceived "unknown", LogEntry.updatedRecord emptyRow]
    ∧ (∀ r o : Option Row,
        handle_record_updated ⟨some ⟨none, r, o⟩⟩ =
          [LogEntry.eventReceived "unknown", LogEntry.updatedRecord (r.getD emptyRow)])
    ∧ (∀ (t : String) (r o : Option Row), t ≠ "DELETE" →
        handle_record_updated ⟨some ⟨some t, r, o⟩⟩ =
          [LogEntry.eventReceived t, LogEntry.updatedRecord (r.getD emptyRow)]) := by
  refine ⟨rfl, fun r o => rfl, fun t r o ht => ?_⟩
  unfold handle_record_updated
  simp [Option.getD, ht]

/-- Witness for C10 at a concrete non-DELETE tag with both record fields
present. -/
theorem handle_record_updated_total_defaults_witness :
    handle_record_updated
        ⟨some ⟨some "TRUNCATE", some [("email", "x")], some [("email", "y")]⟩⟩ =
      [LogEntry.eventReceived "TRUNCATE", LogEntry.updatedRecord [("email", "x")]] :=
  handle_record_updated_total_defaults.2.2 "TRUNCATE"
    (some [("email", "x")]) (some [("email", "y")]) (by decide)

/-- Counterexample to C4: a run whose subscribe step is interrupted before
completing. The `try/finally` in `run_realtime` begins only after
`setup_realtime_subscription` returns, and that helper catches only
`Exception`, so the interrupt propagates out of the listener with zero
unsubscribe attempts — not the one attempt the claim requires. -/
theorem run_realtime_interrupted_subscribe_no_unsub_attempt :
    (run_realtime ⟨some "u", some "k"⟩ (fun _ _ => .ok Client.mk)
        (.error .interrupt) .interrupt (.ok ())).result = .error .interrupt
    ∧ (run_realtime ⟨some "u", some "k"⟩ (fun _ _ => .ok Client.mk)
        (.error .interrupt) .interrupt (.ok ())).unsubAttempts = 0 :=
  ⟨rfl, rfl⟩

/-- C4 as amended: the number of unsubscribe attempts is 1 exactly when the
listener reached the LISTENING state (bootstrap produced a client and the
subscribe round trip produced a channel) and 0 otherwise. In particular the
listener never makes two attempts, never leaves LISTENING without exactly
one attempt (whatever ends the loop and whatever the removal outcome), and
makes no attempt at all — not even a guarded no-op — when the subscribe
step failed or was interrupted before completing. -/
theorem run_realtime_unsub_attempts_eq (env : Env)
    (connect : String → String → Except PyErr Client)
    (sub : Except PyErr Channel) (loopErr : PyErr) (rem : Except PyErr Unit) :
    (run_realtime env connect sub loopErr rem).unsubAttempts =
      (if bootstrapGivesClient env connect && subscribeGivesChannel sub
        then 1 else 0) := by
  unfold run_realtime bootstrapGivesClient subscribeGivesChannel
  cases hinit : initialize_supabase env connect with
  | error err => simp
  | ok ir =>
    cases hc : ir.client with
    | none => simp [hc]
    | some c =>
      cases hs : sub with
      | error serr =>
        cases serr <;>
          simp [hc, setup_realtime_subscription]
      | ok ch =>
        cases hr : rem with
        | error rerr =>
          cases rerr <;> cases loopErr <;>
            simp [hc, setup_realtime_subscription, remove_realtime_subscription]
        | ok u =>
          cases loopErr <;>
            simp [hc, setup_realtime_subscription, remove_realtime_subscription]

/-- C6: when the bootstrap returns a null handle, every command — the four
CRUD commands and the realtime listener — returns immediately with only
the bootstrap's log: no CRUD round trip is attempted, no subscription is
registered, and no unsubscribe happens. -/
theorem commands_abort_on_null_bootstrap (env : Env)
    (connect : String → String → Except PyErr Client)
    (email password : String)
    (insertBackend : Row → Except PyErr (List Credential))
    (updateBackend : TableUpdateRequest → Except PyErr (List Credential))
    (deleteResp listResp : Except PyErr (List Credential))
    (sub : Except PyErr Channel) (loopErr : PyErr) (rem : Except PyErr Unit)
    (ir : InitResult)
    (hinit : initialize_supabase env connect = .ok ir)
    (hnull : ir.client = none) :
    (do_create env connect email password insertBackend).requestAttempted = false
    ∧ (do_create env connect email password insertBackend).result = .ok ir.log
    ∧ (do_update env connect email password updateBackend).requestAttempted = false
    ∧ (do_update env connect email password updateBackend).result = .ok ir.log
    ∧ (do_delete env connect email deleteResp).requestAttempted = false
    ∧ (do_delete env connect email deleteResp).result = .ok ir.log
    ∧ (do_list env connect listResp).requestAttempted = false
    ∧ (do_list env connect listResp).result = .ok ir.log
    ∧ (run_realtime env connect sub loopErr rem).subscribeAttempted = false
    ∧ (run_realtime env connect sub loopErr rem).unsubAttempts = 0
    ∧ (run_realtime env connect sub loopErr rem).result = .ok ir.log := by
  unfold do_create do_update do_delete do_list run_realtime
  simp [hinit, hnull]

/-- Witness for C6 at an environment with both configuration values unset,
where the bootstrap returns a null handle. -/
theorem commands_abort_on_null_bootstrap_witness :
    (do_create ⟨none, none⟩ (fun _ _ => .ok Client.mk) "a@b.com" "p"
        (fun _ => .ok [])).requestAttempted = false :=
  (commands_abort_on_null_bootstrap ⟨none, none⟩ (fun _ _ => .ok Client.mk)
    "a@b.com" "p" (fun _ => .ok []) (fun _ => .ok []) (.ok []) (.ok [])
    (.ok Channel.mk) .interrupt (.ok ())
    ⟨none, [LogEntry.configError], false⟩ rfl rfl).1

/-- C9: an exception raised while removing the realtime subscription is
caught inside `remove_realtime_subscription` and logged, never propagated;
a listener that reached its loop still finishes normally with the removal
failure in its log. -/
theorem remove_subscription_failure_swallowed (e : String) (env : Env)
    (connect : String → String → Except PyErr Client)
    (sub : Except PyErr Channel)
    (hb : bootstrapGivesClient env connect = true)
    (hs : subscribeGivesChannel sub = true) :
    remove_realtime_subscription (.error (.exn e)) =
      .ok [LogEntry.errorRemovingSubscription e]
    ∧ ∃ lg, (run_realtime env connect sub .interrupt
          (.error (.exn e))).result = .ok lg
        ∧ LogEntry.errorRemovingSubscription e ∈ lg := by
  refine ⟨rfl, ?_⟩
  unfold bootstrapGivesClient at hb
  unfold subscribeGivesChannel at hs
  cases hinit : initialize_supabase env connect with
  | error err => rw [hinit] at hb; simp at hb
  | ok ir =>
    rw [hinit] at hb
    simp at hb
    cases hc : ir.client with
    | none => rw [hc] at hb; simp at hb
    | some c =>
      cases hsub : sub with
      | error serr => rw [hsub] at hs; simp at hs
      | ok ch =>
        refine ⟨ir.log ++ [LogEntry.subscribeSuccess] ++ [LogEntry.listening]
          ++ [LogEntry.exitingRealtime]
          ++ [LogEntry.errorRemovingSubscription e], ?_, ?_⟩
        · unfold run_realtime
          simp [hinit, hc, setup_realtime_subscription,
            remove_realtime_subscription]
        · simp

/-- Witness for C9 at a concrete successful bootstrap and subscription with
a failing removal. -/
theorem remove_subscription_failure_swallowed_witness :
    remove_realtime_subscription (.error (.exn "boom")) =
      .ok [LogEntry.errorRemovingSubscription "boom"]
    ∧ ∃ lg, (run_realtime ⟨some "u", some "k"⟩ (fun _ _ => .ok Client.mk)
          (.ok Channel.mk) .interrupt (.error (.exn "boom"))).result = .ok lg
        ∧ LogEntry.errorRemovingSubscription "boom" ∈ lg :=
  remove_subscription_failure_swallowed "boom" ⟨some "u", some "k"⟩
    (fun _ _ => .ok Client.mk) (.ok Channel.mk) rfl rfl

/-- With exception-only oracles (no interrupt), the bootstrap always returns
normally. -/
theorem initialize_supabase_injExn_ok (env : Env)
    (connect : String → String → Except String Client) :
    ∃ ir, initialize_supabase env (fun u k => injExn (connect u k)) =
      .ok ir := by
  unfold initialize_supabase
  by_cases h : (!truthy env.SUPABASE_URL || !truthy env.SUPABASE_KEY) = true
  · exact ⟨⟨none, [LogEntry.configError], false⟩, by rw [if_pos h]⟩
  · cases hc : connect (env.SUPABASE_URL.getD "") (env.SUPABASE_KEY.getD "") with
    | ok c =>
      exact ⟨⟨some c, [LogEntry.initSuccess], true⟩, by simp [h, hc, injExn]⟩
    | error e =>
      exact ⟨⟨none, [LogEntry.initFailure e], true⟩, by simp [h, hc, injExn]⟩

/-- C7: for every command and every internal-failure outcome of the backend
oracles (configuration, connection, request and subscription errors are all
ordinary exceptions, and the realtime loop ends with its interrupt), the
process exits with status 0 — no path sets a distinct non-zero exit code. -/
theorem main_exit_code_zero (cmd : Command) (env : Env)
    (connect : String → String → Except String Client)
    (listResp : Except String (List Credential))
    (insertBackend : Row → Except String (List Credential))
    (updateBackend : TableUpdateRequest → Except String (List Credential))
    (deleteResp : Except String (List Credential))
    (sub : Except String Channel) (rem : Except String Unit) :
    mainExitCode cmd env connect listResp insertBackend updateBackend
      deleteResp sub rem = 0 := by
  obtain ⟨ir, hinit⟩ := initialize_supabase_injExn_ok env connect
  cases cmd with
  | create email password =>
    simp only [mainExitCode, do_create]
    rw [hinit]
    cases hc : ir.client with
    | none => simp [hc]
    | some c =>
      cases hi : insertBackend (insert_credential_row email password) with
      | ok rows => simp [hc, insert_credential, injExn, hi]
      | error e => simp [hc, insert_credential, injExn, hi]
  | update email password =>
    simp only [mainExitCode, do_update]
    rw [hinit]
    cases hc : ir.client with
    | none => simp [hc]
    | some c =>
      cases hu : updateBackend (update_credential_request email password) with
      | ok rows => simp [hc, update_credential, injExn, hu]
      | error e => simp [hc, update_credential, injExn, hu]
  | delete email =>
    simp only [mainExitCode, do_delete]
    rw [hinit]
    cases hc : ir.client with
    | none => simp [hc]
    | some c =>
      cases hd : deleteResp with
      | ok rows => simp [hc, delete_credential, injExn, hd]
      | error e => simp [hc, delete_credential, injExn, hd]
  | list =>
    simp only [mainExitCode, do_list]
    rw [hinit]
    cases hc : ir.client with
    | none => simp [hc]
    | some c =>
      cases hf : listResp with
      | ok rows => simp [hc, fetch_credentials, injExn, hf]
      | error e => simp [hc, fetch_credentials, injExn, hf]
  | realtime =>
    simp only [mainExitCode, run_realtime]
    rw [hinit]
    cases hc : ir.client with
    | none => simp [hc]
    | some c =>
      cases hs : sub with
      | error e =>
        simp [hc, setup_realtime_subscription, injExn, hs]
      | ok ch =>
        cases hr : rem with
        | ok u =>
          simp [hc, setup_realtime_subscription,
            remove_realtime_subscription, injExn, hs, hr]
        | error e =>
          simp [hc, setup_realtime_subscription,
            remove_realtime_subscription, injExn, hs, hr]

/-- C8: the update request the source builds for an email and a new password,
executed under the backend's update semantics, sets exactly the password
column on every row whose email matches, leaves the email of those rows and
every non-matching row unchanged, and creates no row (the table length is
preserved, position by position). -/
theorem update_credential_request_frame (email new_password : String)
    (tbl : List Credential) :
    (applyUpdateRequest (update_credential_request email new_password)
        tbl).length = tbl.length
    ∧ ∀ i : Nat,
        (applyUpdateRequest (update_credential_request email new_password)
            tbl)[i]? =
          (tbl[i]?).map (fun r =>
            if r.email = email then ⟨r.email, new_password⟩ else r) := by
  have hrow : ∀ r : Credential,
      (if getColumn r "email" = some email then
        setColumn r "password" new_password
      else r) = if r.email = email then ⟨r.email, new_password⟩ else r := by
    intro r
    by_cases h : r.email = email <;> simp [getColumn, setColumn, h]
  constructor
  · simp [applyUpdateRequest]
  · intro i
    simp only [applyUpdateRequest, update_credential_request,
      List.getElem?_map]
    cases tbl[i]? with
    | none => rfl
    | some r => simp [hrow r]
